import Mathlib

/-!
# Drift Beacon — shallow embedding of the negotiation/polling/diffing core

This file embeds, in Lean 4, the parts of the `drift-beacon` Home Assistant
integration that the verified claims are about:

* the Diff Engine (`_fire_session_events` in `coordinator.py`),
* the authenticated request helper and poll tick (`_make_authenticated_request`,
  `_async_update_data`),
* the command operations (`start_session`, `stop_session`),
* the three-step authentication handshake (`_do_auth` in `config_flow.py`),
* the hinted/unhinted authentication driver (`_authenticate_and_create_session`),
* the re-authentication step (`async_step_reauth_confirm`),
* the parallel protocol race (`_detect_protocol_parallel`).

Network I/O is modelled by passing each call's raw outcome (an HTTP response
with status and decoded body, or a raised exception) as an explicit argument.
Python exception classes relevant to the control flow are modelled by the
`PyExc` inductive; `except` clauses become case analyses on it.
-/

set_option maxHeartbeats 1000000

namespace DriftBeacon

/-- `Activity` record, after `class Activity(TypedDict)` in `coordinator.py`. -/
structure Activity where
  id : String
  name : String
  description : Option String
  category_id : Option String
  category_name : Option String
  category_icon : Option String
  category_color : Option (List Nat)
  sort_order : Int
  color : List Nat
  icon : String
  workspace_id : String
  workspace_name : String
deriving DecidableEq, Repr

/-- `Session` record, after `class Session(TypedDict)` in `coordinator.py`. -/
structure Session where
  id : String
  activity_id : String
  start_time : String
  end_time : Option String
  workspace_id : String
  workspace_name : String
deriving DecidableEq, Repr

/-- `DriftBeaconData`: the coordinator's per-tick snapshot
(`class DriftBeaconData(TypedDict)`). -/
structure DriftBeaconData where
  activities : List Activity
  live_sessions : List Session
deriving DecidableEq, Repr

/-- Building a Python dict `{s["id"]: s for s in sessions}` and looking a key
up: the *last* list entry with the given id wins, `none` if the key is absent.
Models `old_sessions_by_id` / `new_sessions_by_id` in `_fire_session_events`. -/
def lookupLast (l : List Session) (i : String) : Option Session :=
  match l with
  | [] => none
  | s :: rest =>
    match lookupLast rest i with
    | some r => some r
    | none => if s.id == i then some s else none

/-- The key sequence of a Python dict built by inserting the given keys in
order: each distinct key appears once, at its first-insertion position.
Models `for session_id in old_sessions_by_id` iteration order. -/
def dictKeys (l : List String) : List String :=
  match l with
  | [] => []
  | x :: xs => x :: (dictKeys xs).filter (fun y => y ≠ x)

/-- The `get_activity` helper of `_fire_session_events`: first activity in the
catalog whose `id` matches, else `None`. -/
def get_activity (activities : List Activity) (activity_id : String) : Option Activity :=
  activities.find? (fun a => a.id == activity_id)

/-- The three classes of domain events fired by the coordinator. -/
inductive EventClass where
  | started
  | stopped
  | changed
deriving DecidableEq, Repr

/-- Payload of a `drift_beacon_session_started` event (the dict passed to
`async_fire` in the started branch). -/
structure StartedPayload where
  activity_id : String
  activity_name : String
  color : List Nat
  icon : String
  category_id : Option String
  category_name : Option String
  category_icon : Option String
  category_color : Option (List Nat)
  workspace_id : String
  workspace_name : String
  session_start_time : String
deriving DecidableEq, Repr

/-- Payload of a `drift_beacon_session_stopped` event. -/
structure StoppedPayload where
  activity_id : String
  activity_name : String
  workspace_id : String
  workspace_name : String
deriving DecidableEq, Repr

/-- Payload of a `drift_beacon_session_changed` event. -/
structure ChangedPayload where
  activity_id : String
  activity_name : String
  color : List Nat
  icon : String
  category_id : Option String
  category_name : Option String
  category_icon : Option String
  category_color : Option (List Nat)
  workspace_id : String
  workspace_name : String
  session_start_time : String
  previous_activity_id : String
  previous_activity_name : Option String
deriving DecidableEq, Repr

/-- A fired event. The first argument records, at the model level, the id of
the session the event was derived from (the `new_session["id"]` /
`old_session["id"]` / `session_id` of the loop iteration that fired it). -/
inductive Event where
  | started (session_id : String) (payload : StartedPayload)
  | stopped (session_id : String) (payload : StoppedPayload)
  | changed (session_id : String) (payload : ChangedPayload)
deriving DecidableEq, Repr

/-- The session id an event was derived from. -/
def Event.sessionId : Event → String
  | .started sid _ => sid
  | .stopped sid _ => sid
  | .changed sid _ => sid

/-- The class of an event. -/
def Event.cls : Event → EventClass
  | .started _ _ => .started
  | .stopped _ _ => .stopped
  | .changed _ _ => .changed

/-- The `session_started` event fired for new session `ns` with resolved
activity `a` (the dict literal in the started branch of
`_fire_session_events`). -/
def started_event_for (ns : Session) (a : Activity) : Event :=
  .started ns.id
    { activity_id := a.id
      activity_name := a.name
      color := a.color
      icon := a.icon
      category_id := a.category_id
      category_name := a.category_name
      category_icon := a.category_icon
      category_color := a.category_color
      workspace_id := ns.workspace_id
      workspace_name := ns.workspace_name
      session_start_time := ns.start_time }

/-- The `session_stopped` event fired for vanished session `os` with resolved
activity `a`. -/
def stopped_event_for (os : Session) (a : Activity) : Event :=
  .stopped os.id
    { activity_id := os.activity_id
      activity_name := a.name
      workspace_id := os.workspace_id
      workspace_name := os.workspace_name }

/-- The `session_changed` event fired for session key `sid` moving from
`os` to `ns`, with the new activity `na` resolved and the old activity
resolved best-effort. -/
def changed_event_for (sid : String) (os ns : Session) (na : Activity)
    (old_activity : Option Activity) : Event :=
  .changed sid
    { activity_id := na.id
      activity_name := na.name
      color := na.color
      icon := na.icon
      category_id := na.category_id
      category_name := na.category_name
      category_icon := na.category_icon
      category_color := na.category_color
      workspace_id := ns.workspace_id
      workspace_name := ns.workspace_name
      session_start_time := ns.start_time
      previous_activity_id := os.activity_id
      previous_activity_name := old_activity.map (fun a => a.name) }

/-- First loop of `_fire_session_events`: for each entry of `new_sessions`
whose id is absent from `old_sessions_by_id`, fire `session_started` if the
session's activity resolves, else skip it (no event, no log). -/
def started_events (old_sessions new_sessions : List Session)
    (activities : List Activity) : List Event :=
  new_sessions.filterMap (fun ns =>
    if (lookupLast old_sessions ns.id).isNone then
      match get_activity activities ns.activity_id with
      | some a => some (started_event_for ns a)
      | none => none
    else none)

/-- Second loop of `_fire_session_events`: for each entry of `old_sessions`
whose id is absent from `new_sessions_by_id`, fire `session_stopped` if the
old session's activity resolves, else skip it. -/
def stopped_events (old_sessions new_sessions : List Session)
    (activities : List Activity) : List Event :=
  old_sessions.filterMap (fun os =>
    if (lookupLast new_sessions os.id).isNone then
      match get_activity activities os.activity_id with
      | some a => some (stopped_event_for os a)
      | none => none
    else none)

/-- Third loop of `_fire_session_events`: for each key of
`old_sessions_by_id` that is also in `new_sessions_by_id`, if the activity id
changed, fire `session_changed` when the *new* activity resolves (the old
activity's name is resolved best-effort and its absence does not suppress the
event). -/
def changed_events (old_sessions new_sessions : List Session)
    (activities : List Activity) : List Event :=
  (dictKeys (old_sessions.map (fun s => s.id))).filterMap (fun sid =>
    match lookupLast old_sessions sid, lookupLast new_sessions sid with
    | some os, some ns =>
      if os.activity_id ≠ ns.activity_id then
        match get_activity activities ns.activity_id with
        | some na =>
          some (changed_event_for sid os ns na (get_activity activities os.activity_id))
        | none => none
      else none
    | _, _ => none)

/-- `_fire_session_events(old_sessions, new_sessions, activities)`: the full
ordered event output of one tick (started loop, then stopped loop, then
changed loop). -/
def fire_session_events (old_sessions new_sessions : List Session)
    (activities : List Activity) : List Event :=
  started_events old_sessions new_sessions activities
    ++ stopped_events old_sessions new_sessions activities
    ++ changed_events old_sessions new_sessions activities

/-- Log levels used by the coordinator's logger calls. -/
inductive LogLevel where
  | debug
  | info
  | warning
  | error
deriving DecidableEq, Repr

/-- A recorded logger call. -/
structure LogRecord where
  level : LogLevel
  msg : String
deriving DecidableEq, Repr

/-- The logger calls `_fire_session_events` makes: exactly one
`_LOGGER.debug(...)` immediately before each fired event, and nothing else —
in particular the function contains no `_LOGGER.warning` call, so skipped
(orphaned) sessions produce no log record at all. -/
def fire_session_events_logs (old_sessions new_sessions : List Session)
    (activities : List Activity) : List LogRecord :=
  (fire_session_events old_sessions new_sessions activities).map (fun e =>
    match e with
    | .started _ p => ⟨.debug, "Firing session_started event for activity " ++ p.activity_name⟩
    | .stopped _ p => ⟨.debug, "Firing session_stopped event for activity " ++ p.activity_name⟩
    | .changed _ p => ⟨.debug, "Firing session_changed event in workspace " ++ p.workspace_name⟩)

/-- Number of events in `evs` that were derived from session id `sid` and
belong to class `c`. -/
def countEvents (evs : List Event) (sid : String) (c : EventClass) : Nat :=
  (evs.filter (fun e => e.sessionId == sid && e.cls == c)).length

/-! ## Exceptions and HTTP outcomes -/

/-- The Python exception classes distinguished by the control flow of
`coordinator.py` and `config_flow.py`.  The `isClientError` /
`isClientConnectionError` predicates below encode the relevant parts of the
`aiohttp` class hierarchy (`ClientResponseError < ClientError`;
`ClientSSLError < ClientConnectorError < ClientConnectionError < ClientError`;
`asyncio.TimeoutError` is not an `aiohttp.ClientError`). -/
inductive PyExc where
  | configEntryAuthFailed
  | invalidAuth
  | sessionCreation
  | clientResponseError (status : Nat)
  | clientSSLError
  | clientConnectorError
  | clientConnectionError
  | otherClientError
  | timeoutError
  | otherError
deriving DecidableEq, Repr

/-- Whether the exception is (a subclass of) `aiohttp.ClientError`. -/
def PyExc.isClientError : PyExc → Bool
  | .clientResponseError _ => true
  | .clientSSLError => true
  | .clientConnectorError => true
  | .clientConnectionError => true
  | .otherClientError => true
  | _ => false

/-- Whether the exception is (a subclass of) `aiohttp.ClientConnectionError`. -/
def PyExc.isClientConnectionError : PyExc → Bool
  | .clientSSLError => true
  | .clientConnectorError => true
  | .clientConnectionError => true
  | _ => false

/-- The raw outcome of one HTTP request: either a response (status code plus
decoded JSON body of type `α`) or an exception raised while performing it. -/
inductive RawResponse (α : Type) where
  | response (status : Nat) (body : α)
  | exc (e : PyExc)
deriving DecidableEq, Repr

/-- `response.raise_for_status()` applied to a raw outcome: an exception
propagates unchanged; a status of 400 or above raises
`aiohttp.ClientResponseError` carrying that status; otherwise the body is
returned. -/
def raise_for_status {α : Type} (r : RawResponse α) : Except PyExc α :=
  match r with
  | .exc e => .error e
  | .response s b =>
    if 400 ≤ s then .error (.clientResponseError s) else .ok b

/-! ## Polling coordinator (`coordinator.py`) -/

/-- `_make_authenticated_request`: a 401 status raises
`ConfigEntryAuthFailed`; other statuses go through `raise_for_status`; every
exception (after logging) is re-raised unchanged. -/
def make_authenticated_request {α : Type} (r : RawResponse α) : Except PyExc α :=
  match r with
  | .exc e => .error e
  | .response s b =>
    if s == 401 then .error .configEntryAuthFailed
    else if 400 ≤ s then .error (.clientResponseError s)
    else .ok b

/-- Which of the two distinct `UpdateFailed` messages of
`_async_update_data` was raised. -/
inductive UpdateFailureKind where
  | communicating
  | unexpected
deriving DecidableEq, Repr

/-- The error outcome of one poll tick: either the re-raised
`ConfigEntryAuthFailed`, or an `UpdateFailed`. -/
inductive UpdateError where
  | authFailed
  | updateFailed (kind : UpdateFailureKind)
deriving DecidableEq, Repr

/-- The `except` clauses of `_async_update_data`: `ConfigEntryAuthFailed`
re-raised, `aiohttp.ClientError` wrapped as `UpdateFailed("Error
communicating ...")`, anything else as `UpdateFailed("Unexpected error")`. -/
def coordinator_catch (e : PyExc) : UpdateError :=
  if e == .configEntryAuthFailed then .authFailed
  else if e.isClientError then .updateFailed .communicating
  else .updateFailed .unexpected

/-- `_async_update_data`: read the previous snapshot's live sessions (empty
when `self.data` is `None`), fetch activities then live sessions as two
authenticated calls, fire the diff events, and return the new snapshot
together with the fired events; errors are mapped by the `except` clauses. -/
def async_update_data (prev : Option DriftBeaconData)
    (activities_resp : RawResponse (List Activity))
    (live_sessions_resp : RawResponse (List Session)) :
    Except UpdateError (DriftBeaconData × List Event) :=
  let old_sessions := match prev with
    | some d => d.live_sessions
    | none => []
  match make_authenticated_request activities_resp with
  | .error e => .error (coordinator_catch e)
  | .ok activities =>
    match make_authenticated_request live_sessions_resp with
    | .error e => .error (coordinator_catch e)
    | .ok live_sessions =>
      .ok (⟨activities, live_sessions⟩,
        fire_session_events old_sessions live_sessions activities)

/-- How a command coroutine terminates: return `True`, return `False`, or
re-raise `ConfigEntryAuthFailed`. -/
inductive CommandOutcome where
  | returnedTrue
  | returnedFalse
  | raisedAuthFailed
deriving DecidableEq, Repr

/-- Observable effect of one command call: its termination, and whether
`async_request_refresh()` (the forced tick) was requested during it. -/
structure CommandEffect where
  outcome : CommandOutcome
  refresh_requested : Bool
deriving DecidableEq, Repr

/-- `start_session(activity_id, workspace_id)` given the raw outcome of its
POST: on success it requests an immediate refresh and returns `True`;
`ConfigEntryAuthFailed` is re-raised; `aiohttp.ClientResponseError` and any
other exception return `False` — in those branches no refresh is requested. -/
def start_session {α : Type} (r : RawResponse α) : CommandEffect :=
  match make_authenticated_request r with
  | .ok _ => ⟨.returnedTrue, true⟩
  | .error .configEntryAuthFailed => ⟨.raisedAuthFailed, false⟩
  | .error (.clientResponseError _) => ⟨.returnedFalse, false⟩
  | .error _ => ⟨.returnedFalse, false⟩

/-- `stop_session(activity_id, workspace_id)`: identical control flow to
`start_session` (only endpoint and log text differ). -/
def stop_session {α : Type} (r : RawResponse α) : CommandEffect :=
  match make_authenticated_request r with
  | .ok _ => ⟨.returnedTrue, true⟩
  | .error .configEntryAuthFailed => ⟨.raisedAuthFailed, false⟩
  | .error (.clientResponseError _) => ⟨.returnedFalse, false⟩
  | .error _ => ⟨.returnedFalse, false⟩

/-! ## Constants (`const.py`) -/

/-- `API_TIMEOUT = 5  # seconds` -/
def API_TIMEOUT : ℚ := 5

/-- `DETECTION_TIMEOUT = 2  # seconds` -/
def DETECTION_TIMEOUT : ℚ := 2

/-- `PROTOCOL_DETECTION_TIMEOUT = 1.5  # seconds` -/
def PROTOCOL_DETECTION_TIMEOUT : ℚ := 3 / 2

/-! ## Authentication handshake (`config_flow.py`) -/

/-- Body of the device status endpoint: `data["device"]` with `id`, `name`. -/
structure HubInfo where
  id : String
  name : String
deriving DecidableEq, Repr

/-- Body of the sign-in endpoint: `data["user"]` with `id`, `email`. -/
structure UserInfo where
  id : String
  email : String
deriving DecidableEq, Repr

/-- Body of the create-server-session endpoint. -/
structure ServerSessionInfo where
  serverSessionToken : String
  expiresAt : String
deriving DecidableEq, Repr

/-- The dict returned by a successful `_do_auth`. -/
structure AuthData where
  user_id : String
  user_email : String
  session_token : String
  expires_at : String
  hub_id : String
  hub_name : String
deriving DecidableEq, Repr

/-- The three handshake requests of `_do_auth`, in order. -/
inductive AuthStep where
  | fetchIdentity
  | signIn
  | createServerSession
deriving DecidableEq, Repr

/-- The network environment one `_do_auth` call runs against: the raw outcome
of each of its three requests (on the cookie-scoped temporary session). -/
structure DoAuthEnv where
  status_resp : RawResponse HubInfo
  sign_in_resp : RawResponse UserInfo
  create_session_resp : RawResponse ServerSessionInfo
deriving DecidableEq, Repr

/-- The deterministic composite server id sent in step 3 of `_do_auth`. -/
def server_id_for (hub : HubInfo) (user : UserInfo) : String :=
  "homeassistant_" ++ hub.id ++ "_" ++ user.id

/-- `_do_auth(protocol, host, port, email, password)`: the strictly ordered
three-step handshake.  Step 1 (`GET` device status) uses plain
`raise_for_status`.  Step 2 (sign-in) maps a 401 to `InvalidAuthError`
*before* `raise_for_status`.  Step 3 (create server session) maps a 401 to
`SessionCreationError` before `raise_for_status`.  The second component lists
which of the three requests were actually issued. -/
def do_auth (env : DoAuthEnv) : Except PyExc AuthData × List AuthStep :=
  match raise_for_status env.status_resp with
  | .error e => (.error e, [.fetchIdentity])
  | .ok hub_info =>
    match env.sign_in_resp with
    | .exc e => (.error e, [.fetchIdentity, .signIn])
    | .response s2 user_data =>
      if s2 == 401 then (.error .invalidAuth, [.fetchIdentity, .signIn])
      else if 400 ≤ s2 then
        (.error (.clientResponseError s2), [.fetchIdentity, .signIn])
      else
        match env.create_session_resp with
        | .exc e => (.error e, [.fetchIdentity, .signIn, .createServerSession])
        | .response s3 session_data =>
          if s3 == 401 then
            (.error .sessionCreation, [.fetchIdentity, .signIn, .createServerSession])
          else if 400 ≤ s3 then
            (.error (.clientResponseError s3),
              [.fetchIdentity, .signIn, .createServerSession])
          else
            (.ok { user_id := user_data.id
                   user_email := user_data.email
                   session_token := session_data.serverSessionToken
                   expires_at := session_data.expiresAt
                   hub_id := hub_info.id
                   hub_name := hub_info.name },
              [.fetchIdentity, .signIn, .createServerSession])

/-- The value/exception outcome of `_do_auth` against environment `env`. -/
def do_auth_result (env : DoAuthEnv) : Except PyExc AuthData :=
  (do_auth env).1

/-- Whether an exception is caught by the fallback clause
`except (asyncio.TimeoutError, aiohttp.ClientSSLError,
aiohttp.ClientConnectorError)` of `_authenticate_and_create_session`. -/
def fallback_caught (e : PyExc) : Bool :=
  match e with
  | .timeoutError => true
  | .clientSSLError => true
  | .clientConnectorError => true
  | _ => false

/-- The HTTPS attempt of the unhinted path: `asyncio.wait_for(self._do_auth
("https", ...), timeout=PROTOCOL_DETECTION_TIMEOUT)`.  `timed_out` records
whether the `wait_for` deadline fired (in which case the attempt's outcome is
an `asyncio.TimeoutError` and the inner call's result is discarded). -/
def https_detection_attempt (envOf : String → DoAuthEnv) (timed_out : Bool) :
    Except PyExc AuthData :=
  if timed_out then .error .timeoutError else do_auth_result (envOf "https")

/-- `_authenticate_and_create_session(email, password, host, port, protocol)`.
With `protocol = none` (unhinted): try the full handshake over HTTPS bounded
by `PROTOCOL_DETECTION_TIMEOUT`; on `asyncio.TimeoutError`,
`aiohttp.ClientSSLError` or `aiohttp.ClientConnectorError` fall back to a
single HTTP attempt; any other failure propagates.  With `protocol = some p`
(hinted): one attempt over `p`.  Returns the auth data tagged with the
protocol actually used, plus the trace of attempts as (protocol, timeout
bound) pairs — the HTTPS detection attempt is bounded by
`PROTOCOL_DETECTION_TIMEOUT`, every other attempt only by the per-request
`API_TIMEOUT`. -/
def authenticate_and_create_session (envOf : String → DoAuthEnv)
    (https_timed_out : Bool) :
    Option String → Except PyExc (AuthData × String) × List (String × ℚ)
  | none =>
    match https_detection_attempt envOf https_timed_out with
    | .ok d => (.ok (d, "https"), [("https", PROTOCOL_DETECTION_TIMEOUT)])
    | .error e =>
      if fallback_caught e then
        match do_auth_result (envOf "http") with
        | .ok d =>
          (.ok (d, "http"),
            [("https", PROTOCOL_DETECTION_TIMEOUT), ("http", API_TIMEOUT)])
        | .error e2 =>
          (.error e2,
            [("https", PROTOCOL_DETECTION_TIMEOUT), ("http", API_TIMEOUT)])
      else (.error e, [("https", PROTOCOL_DETECTION_TIMEOUT)])
  | some p =>
    match do_auth_result (envOf p) with
    | .ok d => (.ok (d, p), [(p, API_TIMEOUT)])
    | .error e => (.error e, [(p, API_TIMEOUT)])

/-! ## Re-authentication (`async_step_reauth_confirm`) -/

/-- The persisted config-entry data consumed by re-authentication. -/
structure EntryData where
  host : String
  port : Nat
  protocol : Option String
  email : String
  user_id : String
  session_token : String
  session_expires : String
  hub_id : String
  hub_name : String
deriving DecidableEq, Repr

/-- How the re-authentication step concludes when a password was submitted:
either the entry is updated and reloaded (`async_update_reload_and_abort`
with `data_updates` of token and expiry only), or the form is shown again
with `errors["base"]` set. -/
inductive ReauthOutcome where
  | updatedEntry (entry : EntryData)
  | formShown (error_base : String)
deriving DecidableEq, Repr

/-- The `except` clauses of `async_step_reauth_confirm`: `InvalidAuthError`,
`SessionCreationError`, `aiohttp.ClientConnectionError`, then a blanket
`Exception` handler. -/
def reauth_catch (e : PyExc) : String :=
  if e == .invalidAuth then "invalid_auth"
  else if e == .sessionCreation then "session_creation_failed"
  else if e.isClientConnectionError then "cannot_connect"
  else "unknown"

/-- `async_step_reauth_confirm` with a submitted password: re-authenticate
with the stored email over the *stored* protocol (`entry_data.get
(CONF_PROTOCOL, "https")` — never auto-detected), reject with
`wrong_account` if the authenticated `user_id` differs from the stored one
(leaving the entry untouched), and otherwise update only the session token
and expiry of the stored entry. -/
def async_step_reauth_confirm (stored : EntryData)
    (envOf : String → DoAuthEnv) (https_timed_out : Bool) :
    ReauthOutcome × List (String × ℚ) :=
  match authenticate_and_create_session envOf https_timed_out
      (some (stored.protocol.getD "https")) with
  | (.ok (auth_data, _used), attempts) =>
    if auth_data.user_id ≠ stored.user_id then (.formShown "wrong_account", attempts)
    else
      (.updatedEntry { stored with
          session_token := auth_data.session_token
          session_expires := auth_data.expires_at }, attempts)
  | (.error e, attempts) => (.formShown (reauth_catch e), attempts)

/-! ## Parallel protocol detection (`_detect_protocol_parallel`) -/

/-- The observable nondeterminism of
`asyncio.wait([https_task, http_task], return_when=FIRST_COMPLETED)` with two
tasks: which tasks are in `done` when the wait returns, and — when both are —
in which order the `done` set is iterated. -/
inductive RaceSchedule where
  | httpsDoneFirst
  | httpDoneFirst
  | bothDoneHttpsIterFirst
  | bothDoneHttpIterFirst
deriving DecidableEq, Repr

/-- The protocols of the `done` set, in iteration order. -/
def done_tasks : RaceSchedule → List String
  | .httpsDoneFirst => ["https"]
  | .httpDoneFirst => ["http"]
  | .bothDoneHttpsIterFirst => ["https", "http"]
  | .bothDoneHttpIterFirst => ["http", "https"]

/-- The protocols of the `pending` set. -/
def pending_tasks : RaceSchedule → List String
  | .httpsDoneFirst => ["http"]
  | .httpDoneFirst => ["https"]
  | .bothDoneHttpsIterFirst => []
  | .bothDoneHttpIterFirst => []

/-- The value each `_try_protocol` task resolves to (`None` on any
exception/non-200, the decoded body otherwise). -/
def probe_result {α : Type} (r_https r_http : Option α) (p : String) : Option α :=
  if p == "https" then r_https else r_http

/-- Output of the race: the returned `(protocol, data)` pair (or `None`), and
the list of tasks that were cancelled. -/
structure RaceOutput (α : Type) where
  result : Option (String × α)
  cancelled : List String
deriving DecidableEq, Repr

/-- `_detect_protocol_parallel(host, port, endpoint)` given the two probe
results and a schedule: scan the `done` set in iteration order for the first
task whose result is not `None` — on such a first success, cancel every
pending task and return that task's protocol and data; if no done task
succeeded, await the pending tasks in order and return the first success
among them; if all fail, return `None`. -/
def detect_protocol_parallel {α : Type} (sched : RaceSchedule)
    (r_https r_http : Option α) : RaceOutput α :=
  let resOf := probe_result r_https r_http
  match (done_tasks sched).find? (fun p => (resOf p).isSome) with
  | some p =>
    { result := (resOf p).map (fun d => (p, d)), cancelled := pending_tasks sched }
  | none =>
    match (pending_tasks sched).find? (fun p => (resOf p).isSome) with
    | some p => { result := (resOf p).map (fun d => (p, d)), cancelled := [] }
    | none => { result := none, cancelled := [] }

/-! ## Basic lemmas about the dict model -/

theorem ne_of_lookupLast_eq_none {l : List Session} {i : String}
    (h : lookupLast l i = none) : ∀ s ∈ l, s.id ≠ i := by
  induction l with
  | nil => intro s hs; cases hs
  | cons x xs ih =>
    intro s hs
    rw [lookupLast] at h
    cases hx : lookupLast xs i with
    | some r => rw [hx] at h; simp at h
    | none =>
      rw [hx] at h
      rcases List.mem_cons.mp hs with rfl | hs'
      · intro hsi
        rw [if_pos (by simpa using hsi)] at h
        simp at h
      · exact ih hx s hs'

theorem lookupLast_isSome_of_mem {l : List Session} {s : Session}
    (hs : s ∈ l) : (lookupLast l s.id).isSome = true := by
  induction l with
  | nil => cases hs
  | cons x xs ih =>
    rw [lookupLast]
    cases hx : lookupLast xs s.id with
    | some r => simp
    | none =>
      rcases List.mem_cons.mp hs with rfl | hs'
      · simp
      · have := ih hs'
        rw [hx] at this
        simp at this

theorem lookupLast_append_singleton (l : List Session) (x : Session) (i : String) :
    lookupLast (l ++ [x]) i = if x.id == i then some x else lookupLast l i := by
  induction l with
  | nil =>
    rw [List.nil_append]
    cases hx : x.id == i <;> simp [lookupLast, hx]
  | cons y ys ih =>
    rw [List.cons_append, lookupLast, ih]
    cases hx : x.id == i <;> simp [lookupLast]

theorem mem_dictKeys {l : List String} {a : String} : a ∈ dictKeys l ↔ a ∈ l := by
  induction l with
  | nil => simp [dictKeys]
  | cons x xs ih =>
    rw [dictKeys]
    simp only [List.mem_cons, List.mem_filter]
    constructor
    · rintro (rfl | ⟨hmem, _⟩)
      · exact .inl rfl
      · exact .inr (ih.mp hmem)
    · rintro (rfl | hmem)
      · exact .inl rfl
      · by_cases hax : a = x
        · exact .inl hax
        · exact .inr ⟨ih.mpr hmem, by simpa using hax⟩

theorem dictKeys_nodup (l : List String) : (dictKeys l).Nodup := by
  induction l with
  | nil => simp [dictKeys]
  | cons x xs ih =>
    rw [dictKeys]
    refine List.nodup_cons.mpr ⟨?_, ih.filter _⟩
    intro hmem
    rw [List.mem_filter] at hmem
    have hxx : x ≠ x := by simpa using hmem.2
    exact hxx rfl

/-! ## Characterization of the three event lists -/

theorem started_events_eq (old_sessions new_sessions : List Session)
    (activities : List Activity) :
    started_events old_sessions new_sessions activities =
      new_sessions.filterMap (fun ns =>
        if lookupLast old_sessions ns.id = none then
          (get_activity activities ns.activity_id).map (started_event_for ns)
        else none) := by
  unfold started_events
  congr 1
  funext ns
  cases h : lookupLast old_sessions ns.id <;>
    cases hg : get_activity activities ns.activity_id <;> simp [h, hg]

theorem stopped_events_eq (old_sessions new_sessions : List Session)
    (activities : List Activity) :
    stopped_events old_sessions new_sessions activities =
      old_sessions.filterMap (fun os =>
        if lookupLast new_sessions os.id = none then
          (get_activity activities os.activity_id).map (stopped_event_for os)
        else none) := by
  unfold stopped_events
  congr 1
  funext os
  cases h : lookupLast new_sessions os.id <;>
    cases hg : get_activity activities os.activity_id <;> simp [h, hg]

theorem mem_started_events {old_sessions new_sessions : List Session}
    {activities : List Activity} {e : Event} :
    e ∈ started_events old_sessions new_sessions activities ↔
      ∃ ns ∈ new_sessions, lookupLast old_sessions ns.id = none ∧
        ∃ a, get_activity activities ns.activity_id = some a ∧
          e = started_event_for ns a := by
  rw [started_events_eq]
  simp only [List.mem_filterMap, Option.ite_none_right_eq_some,
    Option.map_eq_some']
  constructor
  · rintro ⟨ns, hns, hnone, a, hg, rfl⟩
    exact ⟨ns, hns, hnone, a, hg, rfl⟩
  · rintro ⟨ns, hns, hnone, a, hg, rfl⟩
    exact ⟨ns, hns, hnone, a, hg, rfl⟩

theorem mem_stopped_events {old_sessions new_sessions : List Session}
    {activities : List Activity} {e : Event} :
    e ∈ stopped_events old_sessions new_sessions activities ↔
      ∃ os ∈ old_sessions, lookupLast new_sessions os.id = none ∧
        ∃ a, get_activity activities os.activity_id = some a ∧
          e = stopped_event_for os a := by
  rw [stopped_events_eq]
  simp only [List.mem_filterMap, Option.ite_none_right_eq_some,
    Option.map_eq_some']
  constructor
  · rintro ⟨os, hos, hnone, a, hg, rfl⟩
    exact ⟨os, hos, hnone, a, hg, rfl⟩
  · rintro ⟨os, hos, hnone, a, hg, rfl⟩
    exact ⟨os, hos, hnone, a, hg, rfl⟩

/-- The per-key body of the changed loop. -/
def changed_body (old_sessions new_sessions : List Session)
    (activities : List Activity) (sid : String) : Option Event :=
  match lookupLast old_sessions sid, lookupLast new_sessions sid with
  | some os, some ns =>
    if os.activity_id ≠ ns.activity_id then
      match get_activity activities ns.activity_id with
      | some na =>
        some (changed_event_for sid os ns na (get_activity activities os.activity_id))
      | none => none
    else none
  | _, _ => none

theorem changed_events_eq (old_sessions new_sessions : List Session)
    (activities : List Activity) :
    changed_events old_sessions new_sessions activities =
      (dictKeys (old_sessions.map (fun s => s.id))).filterMap
        (changed_body old_sessions new_sessions activities) := rfl

theorem changed_body_eq_some {old_sessions new_sessions : List Session}
    {activities : List Activity} {sid : String} {e : Event}
    (h : changed_body old_sessions new_sessions activities sid = some e) :
    ∃ os ns na, lookupLast old_sessions sid = some os ∧
      lookupLast new_sessions sid = some ns ∧
      os.activity_id ≠ ns.activity_id ∧
      get_activity activities ns.activity_id = some na ∧
      e = changed_event_for sid os ns na (get_activity activities os.activity_id) := by
  unfold changed_body at h
  cases ho : lookupLast old_sessions sid with
  | none => rw [ho] at h; simp at h
  | some os =>
    cases hn : lookupLast new_sessions sid with
    | none => rw [ho, hn] at h; simp at h
    | some ns =>
      rw [ho, hn] at h
      by_cases hne : os.activity_id = ns.activity_id
      · simp [hne] at h
      · cases hg : get_activity activities ns.activity_id with
        | none => simp [hne, hg] at h
        | some na =>
          simp only [hne, hg] at h
          rw [if_pos hne] at h
          exact ⟨os, ns, na, rfl, rfl, hne, hg, (Option.some.inj h).symm⟩

theorem mem_changed_events {old_sessions new_sessions : List Session}
    {activities : List Activity} {e : Event}
    (h : e ∈ changed_events old_sessions new_sessions activities) :
    ∃ sid, sid ∈ dictKeys (old_sessions.map (fun s => s.id)) ∧
      ∃ os ns na, lookupLast old_sessions sid = some os ∧
        lookupLast new_sessions sid = some ns ∧
        os.activity_id ≠ ns.activity_id ∧
        get_activity activities ns.activity_id = some na ∧
        e = changed_event_for sid os ns na (get_activity activities os.activity_id) := by
  rw [changed_events_eq] at h
  rcases List.mem_filterMap.mp h with ⟨sid, hsid, hbody⟩
  exact ⟨sid, hsid, changed_body_eq_some hbody⟩

/-! ### Session id and class of emitted events -/

theorem sessionId_started_event (ns : Session) (a : Activity) :
    (started_event_for ns a).sessionId = ns.id := rfl

theorem cls_of_mem_started {old_sessions new_sessions : List Session}
    {activities : List Activity} {e : Event}
    (h : e ∈ started_events old_sessions new_sessions activities) :
    e.cls = .started := by
  rcases mem_started_events.mp h with ⟨ns, _, _, a, _, rfl⟩
  rfl

theorem cls_of_mem_stopped {old_sessions new_sessions : List Session}
    {activities : List Activity} {e : Event}
    (h : e ∈ stopped_events old_sessions new_sessions activities) :
    e.cls = .stopped := by
  rcases mem_stopped_events.mp h with ⟨os, _, _, a, _, rfl⟩
  rfl

theorem cls_of_mem_changed {old_sessions new_sessions : List Session}
    {activities : List Activity} {e : Event}
    (h : e ∈ changed_events old_sessions new_sessions activities) :
    e.cls = .changed := by
  rcases mem_changed_events h with ⟨sid, _, os, ns, na, _, _, _, _, rfl⟩
  rfl

theorem sid_of_mem_started {old_sessions new_sessions : List Session}
    {activities : List Activity} {e : Event}
    (h : e ∈ started_events old_sessions new_sessions activities) :
    lookupLast old_sessions e.sessionId = none := by
  rcases mem_started_events.mp h with ⟨ns, _, hnone, a, _, rfl⟩
  exact hnone

theorem sid_of_mem_stopped {old_sessions new_sessions : List Session}
    {activities : List Activity} {e : Event}
    (h : e ∈ stopped_events old_sessions new_sessions activities) :
    lookupLast new_sessions e.sessionId = none ∧
      (lookupLast old_sessions e.sessionId).isSome = true := by
  rcases mem_stopped_events.mp h with ⟨os, hos, hnone, a, _, rfl⟩
  exact ⟨hnone, lookupLast_isSome_of_mem hos⟩

theorem sid_of_mem_changed {old_sessions new_sessions : List Session}
    {activities : List Activity} {e : Event}
    (h : e ∈ changed_events old_sessions new_sessions activities) :
    (lookupLast old_sessions e.sessionId).isSome = true ∧
      (lookupLast new_sessions e.sessionId).isSome = true := by
  rcases mem_changed_events h with ⟨sid, _, os, ns, na, ho, hn, _, _, rfl⟩
  exact ⟨by rw [show (changed_event_for sid os ns na _).sessionId = sid from rfl, ho]; rfl,
    by rw [show (changed_event_for sid os ns na _).sessionId = sid from rfl, hn]; rfl⟩

/-! ## Counting lemmas -/

theorem countEvents_append (evs evs' : List Event) (sid : String) (c : EventClass) :
    countEvents (evs ++ evs') sid c = countEvents evs sid c + countEvents evs' sid c := by
  simp [countEvents, List.filter_append]

theorem countEvents_eq_zero_of_cls {evs : List Event} {sid : String} {c : EventClass}
    (h : ∀ e ∈ evs, e.cls ≠ c) : countEvents evs sid c = 0 := by
  unfold countEvents
  rw [List.length_eq_zero, List.filter_eq_nil_iff]
  intro e he hbe
  rw [Bool.and_eq_true] at hbe
  exact h e he (by simpa using hbe.2)

theorem countEvents_eq_zero_of_sid {evs : List Event} {sid : String} {c : EventClass}
    (h : ∀ e ∈ evs, e.sessionId ≠ sid) : countEvents evs sid c = 0 := by
  unfold countEvents
  rw [List.length_eq_zero, List.filter_eq_nil_iff]
  intro e he hbe
  rw [Bool.and_eq_true] at hbe
  exact h e he (by simpa using hbe.1)

theorem length_filter_filterMap_le {α β : Type} (l : List α) (f : α → Option β)
    (p : β → Bool) (q : α → Bool)
    (h : ∀ a b, f a = some b → p b = true → q a = true) :
    ((l.filterMap f).filter p).length ≤ (l.filter q).length := by
  induction l with
  | nil => simp
  | cons x xs ih =>
    rw [List.filterMap_cons]
    cases hf : f x with
    | none =>
      rw [List.filter_cons]
      cases hq : q x
      · simpa using ih
      · simp only [List.length_cons]
        exact ih.trans (Nat.le_succ _)
    | some b =>
      rw [List.filter_cons, List.filter_cons]
      cases hp : p b with
      | false =>
        cases hq : q x
        · simpa using ih
        · simp only [List.length_cons]
          exact ih.trans (Nat.le_succ _)
      | true =>
        have hqx : q x = true := h x b hf hp
        simp only [hqx, if_true, List.length_cons]
        exact Nat.succ_le_succ ih

theorem length_filter_eq_le_one {α : Type} [DecidableEq α] (l : List α) (a : α)
    (h : l.Nodup) : (l.filter (fun x => x == a)).length ≤ 1 := by
  induction l with
  | nil => simp
  | cons x xs ih =>
    rw [List.nodup_cons] at h
    rw [List.filter_cons]
    cases hx : (x == a) with
    | false => simpa using ih h.2
    | true =>
      have hxa : x = a := by simpa using hx
      have hnil : xs.filter (fun y => y == a) = [] := by
        rw [List.filter_eq_nil_iff]
        intro y hy hya
        have hy_eq : y = a := by simpa using hya
        exact h.1 ((hy_eq.trans hxa.symm) ▸ hy)
      simp [hnil]

theorem length_filter_session_le_one (l : List Session) (sid : String)
    (h : (l.map Session.id).Nodup) :
    (l.filter (fun s => s.id == sid)).length ≤ 1 := by
  have hlen := length_filter_eq_le_one (l.map Session.id) sid h
  rw [List.filter_map] at hlen
  simpa using hlen

theorem countEvents_started_le_one {old_sessions new_sessions : List Session}
    {activities : List Activity} (sid : String) (c : EventClass)
    (h : (new_sessions.map Session.id).Nodup) :
    countEvents (started_events old_sessions new_sessions activities) sid c ≤ 1 := by
  unfold countEvents
  rw [started_events_eq]
  refine (length_filter_filterMap_le _ _ _ (fun ns => ns.id == sid) ?_).trans
    (length_filter_session_le_one _ _ h)
  intro ns e hf hp
  have hid : e.sessionId = ns.id := by
    by_cases hnone : lookupLast old_sessions ns.id = none
    · rw [if_pos hnone] at hf
      rcases Option.map_eq_some'.mp hf with ⟨a, _, rfl⟩
      rfl
    · rw [if_neg hnone] at hf; cases hf
  rw [Bool.and_eq_true] at hp
  have hsid : e.sessionId = sid := by simpa using hp.1
  simp [← hid, hsid]

theorem countEvents_stopped_le_one {old_sessions new_sessions : List Session}
    {activities : List Activity} (sid : String) (c : EventClass)
    (h : (old_sessions.map Session.id).Nodup) :
    countEvents (stopped_events old_sessions new_sessions activities) sid c ≤ 1 := by
  unfold countEvents
  rw [stopped_events_eq]
  refine (length_filter_filterMap_le _ _ _ (fun os => os.id == sid) ?_).trans
    (length_filter_session_le_one _ _ h)
  intro os e hf hp
  have hid : e.sessionId = os.id := by
    by_cases hnone : lookupLast new_sessions os.id = none
    · rw [if_pos hnone] at hf
      rcases Option.map_eq_some'.mp hf with ⟨a, _, rfl⟩
      rfl
    · rw [if_neg hnone] at hf; cases hf
  rw [Bool.and_eq_true] at hp
  have hsid : e.sessionId = sid := by simpa using hp.1
  simp [← hid, hsid]

theorem countEvents_changed_le_one {old_sessions new_sessions : List Session}
    {activities : List Activity} (sid : String) (c : EventClass) :
    countEvents (changed_events old_sessions new_sessions activities) sid c ≤ 1 := by
  unfold countEvents
  rw [changed_events_eq]
  refine (length_filter_filterMap_le _ _ _ (fun k => k == sid) ?_).trans
    (length_filter_eq_le_one _ _ (dictKeys_nodup _))
  intro k e hf hp
  rcases changed_body_eq_some hf with ⟨os, ns, na, _, _, _, _, rfl⟩
  rw [Bool.and_eq_true] at hp
  have hsid : (changed_event_for k os ns na
      (get_activity activities os.activity_id)).sessionId = sid := by
    simpa using hp.1
  simpa using hsid

/-! ## Lemmas about the combined event list -/

theorem mem_fire_cases {old_sessions new_sessions : List Session}
    {activities : List Activity} {e : Event}
    (h : e ∈ fire_session_events old_sessions new_sessions activities) :
    e ∈ started_events old_sessions new_sessions activities ∨
    e ∈ stopped_events old_sessions new_sessions activities ∨
    e ∈ changed_events old_sessions new_sessions activities := by
  unfold fire_session_events at h
  rcases List.mem_append.mp h with h' | h
  · rcases List.mem_append.mp h' with h'' | h''
    · exact .inl h''
    · exact .inr (.inl h'')
  · exact .inr (.inr h)

/-- `emits old new acts sid c` holds when the tick for `(old, new, acts)`
fires at least one event of class `c` derived from session id `sid`. -/
def emits (old_sessions new_sessions : List Session) (activities : List Activity)
    (sid : String) (c : EventClass) : Prop :=
  ∃ e ∈ fire_session_events old_sessions new_sessions activities,
    e.sessionId = sid ∧ e.cls = c

theorem emits_started_lookup {old_sessions new_sessions : List Session}
    {activities : List Activity} {sid : String}
    (h : emits old_sessions new_sessions activities sid .started) :
    lookupLast old_sessions sid = none := by
  rcases h with ⟨e, he, hsid, hcls⟩
  rcases mem_fire_cases he with h' | h' | h'
  · rw [← hsid]; exact sid_of_mem_started h'
  · rw [cls_of_mem_stopped h'] at hcls; cases hcls
  · rw [cls_of_mem_changed h'] at hcls; cases hcls

theorem emits_stopped_lookup {old_sessions new_sessions : List Session}
    {activities : List Activity} {sid : String}
    (h : emits old_sessions new_sessions activities sid .stopped) :
    lookupLast new_sessions sid = none ∧
      (lookupLast old_sessions sid).isSome = true := by
  rcases h with ⟨e, he, hsid, hcls⟩
  rcases mem_fire_cases he with h' | h' | h'
  · rw [cls_of_mem_started h'] at hcls; cases hcls
  · rw [← hsid]; exact sid_of_mem_stopped h'
  · rw [cls_of_mem_changed h'] at hcls; cases hcls

theorem emits_changed_lookup {old_sessions new_sessions : List Session}
    {activities : List Activity} {sid : String}
    (h : emits old_sessions new_sessions activities sid .changed) :
    (lookupLast old_sessions sid).isSome = true ∧
      (lookupLast new_sessions sid).isSome = true := by
  rcases h with ⟨e, he, hsid, hcls⟩
  rcases mem_fire_cases he with h' | h' | h'
  · rw [cls_of_mem_started h'] at hcls; cases hcls
  · rw [cls_of_mem_stopped h'] at hcls; cases hcls
  · rw [← hsid]; exact sid_of_mem_changed h'

/-! ## Idempotence: `diff(S, S, acts) = []` -/

theorem filterMap_congr_on {α β : Type} {l : List α} {f g : α → Option β}
    (h : ∀ a ∈ l, f a = g a) : l.filterMap f = l.filterMap g := by
  induction l with
  | nil => rfl
  | cons x xs ih =>
    rw [List.filterMap_cons, List.filterMap_cons,
      h x (List.mem_cons_self x xs), ih (fun a ha => h a (List.mem_cons.mpr (.inr ha)))]

theorem started_events_self (S : List Session) (activities : List Activity) :
    started_events S S activities = [] := by
  rw [started_events_eq, List.filterMap_eq_nil_iff]
  intro ns hns
  rw [if_neg]
  intro hnone
  have := lookupLast_isSome_of_mem hns
  rw [hnone] at this
  cases this

theorem stopped_events_self (S : List Session) (activities : List Activity) :
    stopped_events S S activities = [] := by
  rw [stopped_events_eq, List.filterMap_eq_nil_iff]
  intro os hos
  rw [if_neg]
  intro hnone
  have := lookupLast_isSome_of_mem hos
  rw [hnone] at this
  cases this

theorem changed_events_self (S : List Session) (activities : List Activity) :
    changed_events S S activities = [] := by
  rw [changed_events_eq, List.filterMap_eq_nil_iff]
  intro sid _
  unfold changed_body
  cases h : lookupLast S sid with
  | none => simp
  | some os => simp

theorem fire_session_events_self (S : List Session) (activities : List Activity) :
    fire_session_events S S activities = [] := by
  unfold fire_session_events
  rw [started_events_self, stopped_events_self, changed_events_self]
  rfl

/-! ## Orphan sessions are skipped and do not disturb the rest of the tick -/

theorem started_events_append_orphan {old_sessions new_sessions : List Session}
    {activities : List Activity} {orphan : Session}
    (hact : get_activity activities orphan.activity_id = none) :
    started_events old_sessions (new_sessions ++ [orphan]) activities =
      started_events old_sessions new_sessions activities := by
  rw [started_events_eq, started_events_eq, List.filterMap_append]
  have horphan : [orphan].filterMap (fun ns =>
      if lookupLast old_sessions ns.id = none then
        (get_activity activities ns.activity_id).map (started_event_for ns)
      else none) = [] := by
    simp [hact]
  rw [horphan, List.append_nil]

theorem stopped_events_append_orphan {old_sessions new_sessions : List Session}
    {activities : List Activity} {orphan : Session}
    (hid : lookupLast old_sessions orphan.id = none) :
    stopped_events old_sessions (new_sessions ++ [orphan]) activities =
      stopped_events old_sessions new_sessions activities := by
  rw [stopped_events_eq, stopped_events_eq]
  apply filterMap_congr_on
  intro os hos
  have hne : os.id ≠ orphan.id := ne_of_lookupLast_eq_none hid os hos
  have hcond : ¬(orphan.id == os.id) = true := by
    simp only [beq_iff_eq]
    exact fun h => hne h.symm
  rw [lookupLast_append_singleton, if_neg hcond]

theorem changed_events_append_orphan {old_sessions new_sessions : List Session}
    {activities : List Activity} {orphan : Session}
    (hid : lookupLast old_sessions orphan.id = none) :
    changed_events old_sessions (new_sessions ++ [orphan]) activities =
      changed_events old_sessions new_sessions activities := by
  rw [changed_events_eq, changed_events_eq]
  apply filterMap_congr_on
  intro sid hsid
  have hmem : sid ∈ old_sessions.map (fun s => s.id) := mem_dictKeys.mp hsid
  rcases List.mem_map.mp hmem with ⟨s, hs, rfl⟩
  have hne : s.id ≠ orphan.id := ne_of_lookupLast_eq_none hid s hs
  have hcond : ¬(orphan.id == s.id) = true := by
    simp only [beq_iff_eq]
    exact fun h => hne h.symm
  unfold changed_body
  rw [lookupLast_append_singleton, if_neg hcond]

theorem fire_session_events_append_orphan {old_sessions new_sessions : List Session}
    {activities : List Activity} {orphan : Session}
    (hact : get_activity activities orphan.activity_id = none)
    (hid : lookupLast old_sessions orphan.id = none) :
    fire_session_events old_sessions (new_sessions ++ [orphan]) activities =
      fire_session_events old_sessions new_sessions activities := by
  unfold fire_session_events
  rw [started_events_append_orphan hact, stopped_events_append_orphan hid,
    changed_events_append_orphan hid]

theorem dictKeys_append_singleton (l : List String) (x : String) (hx : x ∉ l) :
    dictKeys (l ++ [x]) = dictKeys l ++ [x] := by
  induction l with
  | nil => rfl
  | cons y ys ih =>
    rw [List.cons_append, dictKeys, dictKeys]
    have hxys : x ∉ ys := fun h => hx (List.mem_cons.mpr (.inr h))
    have hxy : x ≠ y := fun h => hx (by rw [h]; exact List.mem_cons_self y ys)
    rw [ih hxys, List.filter_append]
    have hfx : [x].filter (fun z => z ≠ y) = [x] := by simp [hxy]
    rw [hfx, List.cons_append]

theorem started_events_old_append_orphan {old_sessions new_sessions : List Session}
    {activities : List Activity} {orphan : Session}
    (hnew : lookupLast new_sessions orphan.id = none) :
    started_events (old_sessions ++ [orphan]) new_sessions activities =
      started_events old_sessions new_sessions activities := by
  rw [started_events_eq, started_events_eq]
  apply filterMap_congr_on
  intro ns hns
  have hne : ns.id ≠ orphan.id := ne_of_lookupLast_eq_none hnew ns hns
  have hcond : ¬(orphan.id == ns.id) = true := by
    simp only [beq_iff_eq]
    exact fun h => hne h.symm
  rw [lookupLast_append_singleton, if_neg hcond]

theorem stopped_events_old_append_orphan {old_sessions new_sessions : List Session}
    {activities : List Activity} {orphan : Session}
    (hact : get_activity activities orphan.activity_id = none)
    (hnew : lookupLast new_sessions orphan.id = none) :
    stopped_events (old_sessions ++ [orphan]) new_sessions activities =
      stopped_events old_sessions new_sessions activities := by
  rw [stopped_events_eq, stopped_events_eq, List.filterMap_append]
  have horphan : [orphan].filterMap (fun os =>
      if lookupLast new_sessions os.id = none then
        (get_activity activities os.activity_id).map (stopped_event_for os)
      else none) = [] := by
    simp [hnew, hact]
  rw [horphan, List.append_nil]

theorem changed_events_old_append_orphan {old_sessions new_sessions : List Session}
    {activities : List Activity} {orphan : Session}
    (hnew : lookupLast new_sessions orphan.id = none)
    (hold : lookupLast old_sessions orphan.id = none) :
    changed_events (old_sessions ++ [orphan]) new_sessions activities =
      changed_events old_sessions new_sessions activities := by
  rw [changed_events_eq, changed_events_eq]
  have hmap : (old_sessions ++ [orphan]).map (fun s => s.id) =
      old_sessions.map (fun s => s.id) ++ [orphan.id] := by
    simp
  have hx : orphan.id ∉ old_sessions.map (fun s => s.id) := by
    intro hmem
    rcases List.mem_map.mp hmem with ⟨s, hs, hsid⟩
    exact ne_of_lookupLast_eq_none hold s hs hsid
  rw [hmap, dictKeys_append_singleton _ _ hx, List.filterMap_append]
  have horphan : [orphan.id].filterMap
      (changed_body (old_sessions ++ [orphan]) new_sessions activities) = [] := by
    have hself : lookupLast (old_sessions ++ [orphan]) orphan.id = some orphan := by
      rw [lookupLast_append_singleton, if_pos (by simp)]
    simp [changed_body, hself, hnew]
  rw [horphan, List.append_nil]
  apply filterMap_congr_on
  intro sid hsid
  rcases List.mem_map.mp (mem_dictKeys.mp hsid) with ⟨s, hs, rfl⟩
  have hne : s.id ≠ orphan.id := ne_of_lookupLast_eq_none hold s hs
  have hcond : ¬(orphan.id == s.id) = true := by
    simp only [beq_iff_eq]
    exact fun h => hne h.symm
  unfold changed_body
  rw [lookupLast_append_singleton, if_neg hcond]

theorem fire_session_events_old_append_orphan {old_sessions new_sessions : List Session}
    {activities : List Activity} {orphan : Session}
    (hact : get_activity activities orphan.activity_id = none)
    (hnew : lookupLast new_sessions orphan.id = none)
    (hold : lookupLast old_sessions orphan.id = none) :
    fire_session_events (old_sessions ++ [orphan]) new_sessions activities =
      fire_session_events old_sessions new_sessions activities := by
  unfold fire_session_events
  rw [started_events_old_append_orphan hnew, stopped_events_old_append_orphan hact hnew,
    changed_events_old_append_orphan hnew hold]

theorem fire_session_events_logs_no_warning (old_sessions new_sessions : List Session)
    (activities : List Activity) :
    (fire_session_events_logs old_sessions new_sessions activities).filter
      (fun r => r.level == LogLevel.warning) = [] := by
  rw [List.filter_eq_nil_iff]
  intro r hr
  rcases List.mem_map.mp hr with ⟨e, _, rfl⟩
  cases e <;> simp

/-! ## The first tick -/

theorem fire_first_tick (live_sessions : List Session) (activities : List Activity) :
    fire_session_events [] live_sessions activities =
      live_sessions.filterMap (fun s =>
        (get_activity activities s.activity_id).map (started_event_for s)) := by
  unfold fire_session_events
  have h2 : stopped_events [] live_sessions activities = [] := rfl
  have h3 : changed_events [] live_sessions activities = [] := rfl
  rw [h2, h3, List.append_nil, List.append_nil, started_events_eq]
  apply filterMap_congr_on
  intro s _
  rw [if_pos (show lookupLast [] s.id = none from rfl)]

/-! ## Evaluation lemmas for the request helpers -/

theorem make_authenticated_request_ok {α : Type} (b : α) :
    make_authenticated_request (RawResponse.response 200 b) = .ok b := rfl

theorem make_authenticated_request_401 {α : Type} (b : α) :
    make_authenticated_request (RawResponse.response 401 b) =
      .error .configEntryAuthFailed := rfl

theorem coordinator_catch_auth :
    coordinator_catch .configEntryAuthFailed = .authFailed := rfl

theorem coordinator_catch_ne {e : PyExc} (h : e ≠ .configEntryAuthFailed) :
    ∃ k, coordinator_catch e = .updateFailed k := by
  unfold coordinator_catch
  rw [if_neg (by simpa using h)]
  by_cases hc : e.isClientError = true
  · rw [if_pos hc]; exact ⟨_, rfl⟩
  · rw [if_neg hc]; exact ⟨_, rfl⟩

theorem async_update_data_first_error {prev : Option DriftBeaconData}
    {aR : RawResponse (List Activity)} {sR : RawResponse (List Session)} {e : PyExc}
    (h : make_authenticated_request aR = .error e) :
    async_update_data prev aR sR = .error (coordinator_catch e) := by
  unfold async_update_data
  rw [h]

theorem async_update_data_second_error {prev : Option DriftBeaconData}
    {aR : RawResponse (List Activity)} {sR : RawResponse (List Session)}
    {acts : List Activity} {e : PyExc}
    (ha : make_authenticated_request aR = .ok acts)
    (h : make_authenticated_request sR = .error e) :
    async_update_data prev aR sR = .error (coordinator_catch e) := by
  unfold async_update_data
  rw [ha, h]

/-! ## Claim theorems -/

/-- C8: for every session id present (as a dict key) in both the old and new
session collections with an unchanged `activity_id`, the diff produces no
event of any class derived from that session id; and `diff(S, S, acts) = []`
for every snapshot `S` and activity catalog `acts`. -/
theorem diff_unchanged_sessions_no_events :
    (∀ (old_sessions new_sessions : List Session) (activities : List Activity)
      (sid : String) (os ns : Session),
      lookupLast old_sessions sid = some os →
      lookupLast new_sessions sid = some ns →
      os.activity_id = ns.activity_id →
      ∀ c, countEvents (fire_session_events old_sessions new_sessions activities) sid c = 0) ∧
    (∀ (S : List Session) (activities : List Activity),
      fire_session_events S S activities = []) := by
  constructor
  · intro old new acts sid os ns ho hn heq c
    unfold fire_session_events
    rw [countEvents_append, countEvents_append]
    have h1 : countEvents (started_events old new acts) sid c = 0 := by
      apply countEvents_eq_zero_of_sid
      intro e he hsid
      have hl := sid_of_mem_started he
      rw [hsid, ho] at hl
      cases hl
    have h2 : countEvents (stopped_events old new acts) sid c = 0 := by
      apply countEvents_eq_zero_of_sid
      intro e he hsid
      have hl := (sid_of_mem_stopped he).1
      rw [hsid, hn] at hl
      cases hl
    have h3 : countEvents (changed_events old new acts) sid c = 0 := by
      apply countEvents_eq_zero_of_sid
      intro e he hsid
      rcases mem_changed_events he with ⟨sid', _, os', ns', na, ho', hn', hne, _, rfl⟩
      have hss : sid' = sid := by simpa using hsid
      subst hss
      rw [ho] at ho'
      rw [hn] at hn'
      cases Option.some.inj ho'
      cases Option.some.inj hn'
      exact hne heq
    rw [h1, h2, h3]
  · intro S acts
    exact fire_session_events_self S acts

/-- Witness for C8 at a concrete input: one unchanged session in both
snapshots yields a zero changed-event count. -/
theorem diff_unchanged_sessions_no_events_witness :
    countEvents (fire_session_events
      [⟨"s1", "a1", "t0", none, "w1", "W"⟩]
      [⟨"s1", "a1", "t0", none, "w1", "W"⟩] []) "s1" .changed = 0 :=
  diff_unchanged_sessions_no_events.1
    [⟨"s1", "a1", "t0", none, "w1", "W"⟩]
    [⟨"s1", "a1", "t0", none, "w1", "W"⟩] [] "s1"
    ⟨"s1", "a1", "t0", none, "w1", "W"⟩ ⟨"s1", "a1", "t0", none, "w1", "W"⟩
    (by decide) (by decide) rfl .changed

/-- C10: on the first successful poll tick (`self.data` is `None`) the diff
runs against an empty previous list, so the result is `ok`, the fired events
are exactly one `session_started` per live session whose `activity_id`
resolves in the fetched catalog (in list order), and every fired event is of
the started class. -/
theorem first_tick_only_started_events :
    ∀ (activities : List Activity) (live_sessions : List Session),
      async_update_data none (.response 200 activities) (.response 200 live_sessions) =
        .ok (⟨activities, live_sessions⟩,
          live_sessions.filterMap (fun s =>
            (get_activity activities s.activity_id).map (started_event_for s))) ∧
      (∀ e ∈ fire_session_events [] live_sessions activities, e.cls = .started) := by
  intro acts sess
  constructor
  · have hshape : async_update_data none (.response 200 acts) (.response 200 sess) =
        .ok (⟨acts, sess⟩, fire_session_events [] sess acts) := by
      simp only [async_update_data, make_authenticated_request_ok]
    rw [hshape, fire_first_tick]
  · intro e he
    rcases mem_fire_cases he with h | h | h
    · exact cls_of_mem_started h
    · rw [show stopped_events [] sess acts = [] from rfl] at h
      cases h
    · rw [show changed_events [] sess acts = [] from rfl] at h
      cases h

/-- Witness for C10 at a concrete input: the single started event fired on a
first tick has the started class. -/
theorem first_tick_only_started_events_witness :
    (started_event_for ⟨"s1", "a1", "t0", none, "w1", "W"⟩
      ⟨"a1", "Deep Work", none, none, none, none, none, 0, [255, 0, 0], "mdi:work",
        "w1", "W"⟩).cls = .started :=
  (first_tick_only_started_events
    [⟨"a1", "Deep Work", none, none, none, none, none, 0, [255, 0, 0], "mdi:work",
      "w1", "W"⟩]
    [⟨"s1", "a1", "t0", none, "w1", "W"⟩]).2 _ (by decide)

/-- C2 counterexample: with a duplicated session id in the new list (and the
id absent from the old list), the started loop fires once per occurrence —
two started events for the same session id in one tick, refuting
"at most one event per session id per class ... for all inputs, including
lists containing duplicate session ids". -/
theorem dup_session_double_started_event :
    countEvents (fire_session_events []
      [⟨"s1", "a1", "t0", none, "w1", "W"⟩, ⟨"s1", "a1", "t0", none, "w1", "W"⟩]
      [⟨"a1", "Deep Work", none, none, none, none, none, 0, [255, 0, 0], "mdi:work",
        "w1", "W"⟩])
      "s1" .started = 2 := by decide

/-- C2 amended: the three event classes are pairwise disjoint per session id
for *all* inputs; and when the old and new session lists each contain no
duplicate session ids, the diff emits at most one event per session id per
class. (With duplicate ids in the input lists the started/stopped loops
iterate the raw lists and can fire once per occurrence.) -/
theorem fire_session_events_per_session_class :
    (∀ (old_sessions new_sessions : List Session) (activities : List Activity)
      (sid : String),
      ¬(emits old_sessions new_sessions activities sid .started ∧
        emits old_sessions new_sessions activities sid .stopped) ∧
      ¬(emits old_sessions new_sessions activities sid .started ∧
        emits old_sessions new_sessions activities sid .changed) ∧
      ¬(emits old_sessions new_sessions activities sid .stopped ∧
        emits old_sessions new_sessions activities sid .changed)) ∧
    (∀ (old_sessions new_sessions : List Session) (activities : List Activity)
      (sid : String) (c : EventClass),
      (old_sessions.map Session.id).Nodup →
      (new_sessions.map Session.id).Nodup →
      countEvents (fire_session_events old_sessions new_sessions activities) sid c ≤ 1) := by
  constructor
  · intro old new acts sid
    refine ⟨?_, ?_, ?_⟩
    · rintro ⟨h1, h2⟩
      have ha := emits_started_lookup h1
      have hb := (emits_stopped_lookup h2).2
      rw [ha] at hb
      cases hb
    · rintro ⟨h1, h2⟩
      have ha := emits_started_lookup h1
      have hb := (emits_changed_lookup h2).1
      rw [ha] at hb
      cases hb
    · rintro ⟨h1, h2⟩
      have ha := (emits_stopped_lookup h1).1
      have hb := (emits_changed_lookup h2).2
      rw [ha] at hb
      cases hb
  · intro old new acts sid c hold hnew
    unfold fire_session_events
    rw [countEvents_append, countEvents_append]
    cases c with
    | started =>
      have h2 : countEvents (stopped_events old new acts) sid .started = 0 :=
        countEvents_eq_zero_of_cls (fun e he => by rw [cls_of_mem_stopped he]; simp)
      have h3 : countEvents (changed_events old new acts) sid .started = 0 :=
        countEvents_eq_zero_of_cls (fun e he => by rw [cls_of_mem_changed he]; simp)
      rw [h2, h3]
      simpa using countEvents_started_le_one sid .started hnew
    | stopped =>
      have h1 : countEvents (started_events old new acts) sid .stopped = 0 :=
        countEvents_eq_zero_of_cls (fun e he => by rw [cls_of_mem_started he]; simp)
      have h3 : countEvents (changed_events old new acts) sid .stopped = 0 :=
        countEvents_eq_zero_of_cls (fun e he => by rw [cls_of_mem_changed he]; simp)
      rw [h1, h3]
      simpa using countEvents_stopped_le_one sid .stopped hold
    | changed =>
      have h1 : countEvents (started_events old new acts) sid .changed = 0 :=
        countEvents_eq_zero_of_cls (fun e he => by rw [cls_of_mem_started he]; simp)
      have h2 : countEvents (stopped_events old new acts) sid .changed = 0 :=
        countEvents_eq_zero_of_cls (fun e he => by rw [cls_of_mem_stopped he]; simp)
      rw [h1, h2]
      simpa using countEvents_changed_le_one sid .changed

/-- Witness for the C2 amended theorem at a concrete duplicate-free input. -/
theorem fire_session_events_per_session_class_witness :
    countEvents (fire_session_events []
      [⟨"s1", "a1", "t0", none, "w1", "W"⟩]
      [⟨"a1", "Deep Work", none, none, none, none, none, 0, [255, 0, 0], "mdi:work",
        "w1", "W"⟩]) "s1" .started ≤ 1 :=
  fire_session_events_per_session_class.2 []
    [⟨"s1", "a1", "t0", none, "w1", "W"⟩]
    [⟨"a1", "Deep Work", none, none, none, none, none, 0, [255, 0, 0], "mdi:work",
      "w1", "W"⟩] "s1" .started (by decide) (by decide)

/-- C6 counterexample: a live session whose `activity_id` does not resolve is
skipped without any event — but also without any recorded warning: the log
stream of `_fire_session_events` contains no warning-level record, refuting
"skipped with a recorded warning". -/
theorem orphan_skipped_without_warning :
    fire_session_events [] [⟨"s1", "missing", "t0", none, "w1", "W"⟩] [] = [] ∧
    (fire_session_events_logs [] [⟨"s1", "missing", "t0", none, "w1", "W"⟩] []).filter
      (fun r => r.level == LogLevel.warning) = [] := by
  exact ⟨by decide, by decide⟩

/-- C6 amended: a live session whose `activity_id` does not resolve in the
concurrent activity catalog is skipped by the diff without a crash and
without disturbing the rest of the tick, in both loops that require
resolution: (a) an orphan appearing in the *new* list (the started-loop skip:
no `session_started` event) and (b) an orphaned *old* session that vanished
from the new list (the stopped-loop skip: no `session_stopped` event) — in
each case the tick's events are exactly those of the same tick without the
orphan, so events for unrelated session ids are emitted unchanged. But the
skip is *silent*: the diff records no warning (its only logging is one debug
record per fired event). -/
theorem orphan_sessions_skipped_silently :
    ∀ (old_sessions new_sessions : List Session) (activities : List Activity)
      (orphan : Session),
      get_activity activities orphan.activity_id = none →
      (lookupLast old_sessions orphan.id = none →
        fire_session_events old_sessions (new_sessions ++ [orphan]) activities =
          fire_session_events old_sessions new_sessions activities) ∧
      (lookupLast new_sessions orphan.id = none →
        lookupLast old_sessions orphan.id = none →
        fire_session_events (old_sessions ++ [orphan]) new_sessions activities =
          fire_session_events old_sessions new_sessions activities) ∧
      (fire_session_events_logs old_sessions (new_sessions ++ [orphan]) activities).filter
        (fun r => r.level == LogLevel.warning) = [] ∧
      (fire_session_events_logs (old_sessions ++ [orphan]) new_sessions activities).filter
        (fun r => r.level == LogLevel.warning) = [] := by
  intro old new acts orphan hact
  exact ⟨fun hold => fire_session_events_append_orphan hact hold,
    fun hnew hold => fire_session_events_old_append_orphan hact hnew hold,
    fire_session_events_logs_no_warning old (new ++ [orphan]) acts,
    fire_session_events_logs_no_warning (old ++ [orphan]) new acts⟩

/-- Witness for the C6 amended theorem, stopped-loop side: a vanished
orphaned session in the old list of a tick with one still-live resolvable
session produces no `session_stopped` event and changes nothing. -/
theorem orphan_sessions_skipped_silently_witness :
    fire_session_events
      ([⟨"s1", "a1", "t0", none, "w1", "W"⟩] ++ [⟨"s2", "missing", "t1", none, "w1", "W"⟩])
      [⟨"s1", "a1", "t0", none, "w1", "W"⟩]
      [⟨"a1", "Deep Work", none, none, none, none, none, 0, [255, 0, 0], "mdi:work",
        "w1", "W"⟩] =
      fire_session_events [⟨"s1", "a1", "t0", none, "w1", "W"⟩]
        [⟨"s1", "a1", "t0", none, "w1", "W"⟩]
        [⟨"a1", "Deep Work", none, none, none, none, none, 0, [255, 0, 0], "mdi:work",
          "w1", "W"⟩] :=
  ((orphan_sessions_skipped_silently
    [⟨"s1", "a1", "t0", none, "w1", "W"⟩]
    [⟨"s1", "a1", "t0", none, "w1", "W"⟩]
    [⟨"a1", "Deep Work", none, none, none, none, none, 0, [255, 0, 0], "mdi:work",
      "w1", "W"⟩]
    ⟨"s2", "missing", "t1", none, "w1", "W"⟩ (by decide)).2.1 (by decide) (by decide))

/-- C1 counterexample: a failing command (here a transport-level
`aiohttp.ClientError` during the POST) returns `False` and does *not*
trigger the forced refresh — `async_request_refresh()` is only reached on the
success path, refuting "an immediate forced refresh tick is triggered ...
regardless of whether the command itself succeeded or failed". -/
theorem command_failure_skips_refresh :
    start_session (RawResponse.exc .otherClientError : RawResponse Unit) =
      ⟨.returnedFalse, false⟩ ∧
    stop_session (RawResponse.exc .otherClientError : RawResponse Unit) =
      ⟨.returnedFalse, false⟩ :=
  ⟨rfl, rfl⟩

/-- C1 amended: `start_session`/`stop_session` degrade failures to a boolean
`False` (re-raising only `ConfigEntryAuthFailed`), and the forced refresh
tick is requested exactly when the command itself succeeded: on any failure
no refresh is triggered. -/
theorem command_refresh_iff_success :
    ∀ (α : Type) (r : RawResponse α),
      ((start_session r).refresh_requested = true ↔
        (start_session r).outcome = .returnedTrue) ∧
      ((stop_session r).refresh_requested = true ↔
        (stop_session r).outcome = .returnedTrue) := by
  intro α r
  unfold start_session stop_session
  cases h : make_authenticated_request r with
  | ok b => simp
  | error e => cases e <;> simp

/-- C3: during a poll tick, a 401 on either the activities fetch or the
live-sessions fetch surfaces as the distinct `ConfigEntryAuthFailed`
condition (never converted to a generic failure), while any other error of
either fetch yields `UpdateFailed`. -/
theorem poll_tick_error_taxonomy :
    ∀ (prev : Option DriftBeaconData) (aR : RawResponse (List Activity))
      (sR : RawResponse (List Session)),
      (∀ b, aR = .response 401 b →
        async_update_data prev aR sR = .error .authFailed) ∧
      (∀ (acts : List Activity) b, make_authenticated_request aR = .ok acts →
        sR = .response 401 b →
        async_update_data prev aR sR = .error .authFailed) ∧
      (∀ e, make_authenticated_request aR = .error e → e ≠ .configEntryAuthFailed →
        ∃ k, async_update_data prev aR sR = .error (.updateFailed k)) ∧
      (∀ (acts : List Activity) e, make_authenticated_request aR = .ok acts →
        make_authenticated_request sR = .error e → e ≠ .configEntryAuthFailed →
        ∃ k, async_update_data prev aR sR = .error (.updateFailed k)) := by
  intro prev aR sR
  refine ⟨?_, ?_, ?_, ?_⟩
  · rintro b rfl
    rw [async_update_data_first_error (make_authenticated_request_401 b),
      coordinator_catch_auth]
  · rintro acts b ha rfl
    rw [async_update_data_second_error ha (make_authenticated_request_401 b),
      coordinator_catch_auth]
  · intro e he hne
    rcases coordinator_catch_ne hne with ⟨k, hk⟩
    exact ⟨k, by rw [async_update_data_first_error he, hk]⟩
  · intro acts e ha he hne
    rcases coordinator_catch_ne hne with ⟨k, hk⟩
    exact ⟨k, by rw [async_update_data_second_error ha he, hk]⟩

/-- Witness for C3: a 401 on the activities fetch of a first tick yields the
authentication-failed condition. -/
theorem poll_tick_error_taxonomy_witness :
    async_update_data none (.response 401 ([] : List Activity))
      (.response 200 ([] : List Session)) = .error .authFailed :=
  (poll_tick_error_taxonomy none (.response 401 []) (.response 200 [])).1 [] rfl

/-- C4: in the three-step handshake, a 401 on the credential sign-in step
fails with `InvalidAuthError` and the session-token issuance request is never
made; a 401 on the session-token issuance step (after a successful sign-in)
fails with the distinct `SessionCreationError`. -/
theorem do_auth_401_taxonomy :
    ∀ (env : DoAuthEnv) (hub : HubInfo),
      raise_for_status env.status_resp = .ok hub →
      (∀ (u : UserInfo), env.sign_in_resp = .response 401 u →
        (do_auth env).1 = .error .invalidAuth ∧
        AuthStep.createServerSession ∉ (do_auth env).2) ∧
      (∀ (s2 : Nat) (u : UserInfo), env.sign_in_resp = .response s2 u →
        s2 ≠ 401 → s2 < 400 →
        ∀ (sd : ServerSessionInfo), env.create_session_resp = .response 401 sd →
        (do_auth env).1 = .error .sessionCreation ∧
        (do_auth env).2 = [.fetchIdentity, .signIn, .createServerSession]) := by
  intro env hub hraise
  constructor
  · intro u hsign
    constructor
    · simp [do_auth, hraise, hsign]
    · simp [do_auth, hraise, hsign]
  · intro s2 u hsign hne hlt sd hcreate
    have h401 : (s2 == 401) = false := by
      simp only [beq_eq_false_iff_ne, ne_eq]
      exact hne
    have h400 : ¬(400 ≤ s2) := Nat.not_le.mpr hlt
    constructor
    · simp [do_auth, hraise, hsign, hcreate, h401, h400]
    · simp [do_auth, hraise, hsign, hcreate, h401, h400]

/-- Witness for C4: a 401 sign-in response at a concrete environment fails
with `InvalidAuthError` and never issues the session-creation request. -/
theorem do_auth_401_taxonomy_witness :
    (do_auth ⟨.response 200 ⟨"h", "H"⟩, .response 401 ⟨"u", "e"⟩,
      .response 200 ⟨"tok", "exp"⟩⟩).1 = .error .invalidAuth ∧
    AuthStep.createServerSession ∉
      (do_auth ⟨.response 200 ⟨"h", "H"⟩, .response 401 ⟨"u", "e"⟩,
        .response 200 ⟨"tok", "exp"⟩⟩).2 :=
  (do_auth_401_taxonomy
    ⟨.response 200 ⟨"h", "H"⟩, .response 401 ⟨"u", "e"⟩, .response 200 ⟨"tok", "exp"⟩⟩
    ⟨"h", "H"⟩ rfl).1 ⟨"u", "e"⟩ rfl

theorem authenticate_hinted_ok {envOf : String → DoAuthEnv} {t : Bool}
    {p : String} {d : AuthData} (h : do_auth_result (envOf p) = .ok d) :
    authenticate_and_create_session envOf t (some p) =
      (.ok (d, p), [(p, API_TIMEOUT)]) := by
  simp only [authenticate_and_create_session, h]

theorem authenticate_hinted_error {envOf : String → DoAuthEnv} {t : Bool}
    {p : String} {e : PyExc} (h : do_auth_result (envOf p) = .error e) :
    authenticate_and_create_session envOf t (some p) =
      (.error e, [(p, API_TIMEOUT)]) := by
  simp only [authenticate_and_create_session, h]

theorem async_step_reauth_confirm_eq (stored : EntryData)
    (envOf : String → DoAuthEnv) (t : Bool) :
    async_step_reauth_confirm stored envOf t =
      (match do_auth_result (envOf (stored.protocol.getD "https")) with
       | .ok d =>
         if d.user_id ≠ stored.user_id then
           (.formShown "wrong_account",
             [(stored.protocol.getD "https", API_TIMEOUT)])
         else
           (.updatedEntry { stored with
               session_token := d.session_token
               session_expires := d.expires_at },
             [(stored.protocol.getD "https", API_TIMEOUT)])
       | .error e =>
         (.formShown (reauth_catch e),
           [(stored.protocol.getD "https", API_TIMEOUT)])) := by
  unfold async_step_reauth_confirm
  cases hdr : do_auth_result (envOf (stored.protocol.getD "https")) with
  | ok d => rw [authenticate_hinted_ok hdr]
  | error e => rw [authenticate_hinted_error hdr]

/-- C5: re-authentication performs the handshake on the previously stored
transport only (exactly one attempt, no auto-detection; a missing stored
protocol defaults to `"https"`); if the newly authenticated `user_id`
differs from the stored one, the attempt is rejected with the
`wrong_account` form error and the entry is not updated; and when the entry
*is* updated, every identity field (host, port, protocol, email, user id,
hub id, hub name) is left unchanged — only token and expiry are replaced. -/
theorem reauth_pinned_transport_and_account_guard :
    ∀ (stored : EntryData) (envOf : String → DoAuthEnv) (t : Bool),
      (async_step_reauth_confirm stored envOf t).2 =
        [(stored.protocol.getD "https", API_TIMEOUT)] ∧
      (∀ d, do_auth_result (envOf (stored.protocol.getD "https")) = .ok d →
        d.user_id ≠ stored.user_id →
        (async_step_reauth_confirm stored envOf t).1 = .formShown "wrong_account") ∧
      (∀ entry, (async_step_reauth_confirm stored envOf t).1 = .updatedEntry entry →
        entry.host = stored.host ∧ entry.port = stored.port ∧
        entry.protocol = stored.protocol ∧ entry.email = stored.email ∧
        entry.user_id = stored.user_id ∧ entry.hub_id = stored.hub_id ∧
        entry.hub_name = stored.hub_name) := by
  intro stored envOf t
  rw [async_step_reauth_confirm_eq]
  refine ⟨?_, ?_, ?_⟩
  · cases hdr : do_auth_result (envOf (stored.protocol.getD "https")) with
    | ok d =>
      by_cases hmis : d.user_id ≠ stored.user_id
      · simp [hmis]
      · simp [hmis]
    | error e => simp
  · intro d hd hmis
    rw [hd]
    simp [hmis]
  · intro entry hupd
    cases hdr : do_auth_result (envOf (stored.protocol.getD "https")) with
    | ok d =>
      rw [hdr] at hupd
      by_cases hmis : d.user_id ≠ stored.user_id
      · simp [hmis] at hupd
      · simp only [hmis, if_false, ite_false, if_neg, not_false_eq_true] at hupd
        simp at hupd
        rw [← hupd]
        exact ⟨rfl, rfl, rfl, rfl, rfl, rfl, rfl⟩
    | error e =>
      rw [hdr] at hupd
      simp at hupd

/-- Witness for C5: a stored HTTPS connection whose re-authentication comes
back as a different user id is rejected with the `wrong_account` error. -/
theorem reauth_pinned_transport_witness :
    (async_step_reauth_confirm
      ⟨"host", 9000, some "https", "e@x", "u1", "tok", "exp", "h", "H"⟩
      (fun _ => ⟨.response 200 ⟨"h", "H"⟩, .response 200 ⟨"u2", "e@x"⟩,
        .response 200 ⟨"tok2", "exp2"⟩⟩) false).1 = .formShown "wrong_account" :=
  (reauth_pinned_transport_and_account_guard
    ⟨"host", 9000, some "https", "e@x", "u1", "tok", "exp", "h", "H"⟩
    (fun _ => ⟨.response 200 ⟨"h", "H"⟩, .response 200 ⟨"u2", "e@x"⟩,
      .response 200 ⟨"tok2", "exp2"⟩⟩) false).2.1
    ⟨"u2", "e@x", "tok2", "exp2", "h", "H"⟩ rfl (by decide)

/-- C7: unhinted (first-time) authentication attempts the full handshake on
the encrypted transport first, bounded by the dedicated
`PROTOCOL_DETECTION_TIMEOUT = 1.5` which is strictly shorter than the
per-request `API_TIMEOUT = 5`; only an `asyncio.TimeoutError`,
`aiohttp.ClientSSLError` or `aiohttp.ClientConnectorError` triggers the
fallback, which is exactly one (sequential, never raced) attempt over the
unencrypted transport whose own outcome is returned; any other failure of
the HTTPS attempt propagates with no fallback attempt. -/
theorem unhinted_auth_secure_first_fallback :
    PROTOCOL_DETECTION_TIMEOUT = 3 / 2 ∧ API_TIMEOUT = 5 ∧
    PROTOCOL_DETECTION_TIMEOUT < API_TIMEOUT ∧
    ∀ (envOf : String → DoAuthEnv) (t : Bool),
      (∀ d, https_detection_attempt envOf t = .ok d →
        authenticate_and_create_session envOf t none =
          (.ok (d, "https"), [("https", PROTOCOL_DETECTION_TIMEOUT)])) ∧
      (∀ e, https_detection_attempt envOf t = .error e → fallback_caught e = true →
        authenticate_and_create_session envOf t none =
          ((match do_auth_result (envOf "http") with
            | .ok d => .ok (d, "http")
            | .error e2 => .error e2),
           [("https", PROTOCOL_DETECTION_TIMEOUT), ("http", API_TIMEOUT)])) ∧
      (∀ e, https_detection_attempt envOf t = .error e → fallback_caught e = false →
        authenticate_and_create_session envOf t none =
          (.error e, [("https", PROTOCOL_DETECTION_TIMEOUT)])) := by
  refine ⟨rfl, rfl, by norm_num [PROTOCOL_DETECTION_TIMEOUT, API_TIMEOUT], ?_⟩
  intro envOf t
  refine ⟨?_, ?_, ?_⟩
  · intro d h
    simp only [authenticate_and_create_session, h]
  · intro e h hfb
    simp only [authenticate_and_create_session, h, hfb, if_true]
    cases hh : do_auth_result (envOf "http") with
    | ok d => simp [hh]
    | error e2 => simp [hh]
  · intro e h hfb
    simp only [authenticate_and_create_session, h, hfb]
    rw [if_neg (by simp [hfb])]

/-- Witness for C7: with a healthy HTTPS environment and no timeout, the
unhinted flow succeeds over HTTPS in a single detection-bounded attempt. -/
theorem unhinted_auth_secure_first_fallback_witness :
    authenticate_and_create_session
      (fun _ => ⟨.response 200 ⟨"h", "H"⟩, .response 200 ⟨"u", "e"⟩,
        .response 200 ⟨"tok", "exp"⟩⟩) false none =
      (.ok (⟨"u", "e", "tok", "exp", "h", "H"⟩, "https"),
        [("https", PROTOCOL_DETECTION_TIMEOUT)]) :=
  (unhinted_auth_secure_first_fallback.2.2.2
    (fun _ => ⟨.response 200 ⟨"h", "H"⟩, .response 200 ⟨"u", "e"⟩,
      .response 200 ⟨"tok", "exp"⟩⟩) false).1
    ⟨"u", "e", "tok", "exp", "h", "H"⟩ rfl

/-- C9: in the protocol race, whenever exactly one candidate's probe
succeeds, `_detect_protocol_parallel` returns that candidate's protocol and
data regardless of completion order; when a first success is found among the
completed tasks, every still-pending probe is cancelled; and when both
probes fail the race returns `None`. -/
theorem race_single_success_and_cancellation :
    ∀ (α : Type) (sched : RaceSchedule) (r_https r_http : Option α),
      (∀ d, r_https = some d → r_http = none →
        (detect_protocol_parallel sched r_https r_http).result = some ("https", d)) ∧
      (∀ d, r_http = some d → r_https = none →
        (detect_protocol_parallel sched r_https r_http).result = some ("http", d)) ∧
      (r_https = none → r_http = none →
        (detect_protocol_parallel sched r_https r_http).result = none) ∧
      ((∃ p ∈ done_tasks sched, (probe_result r_https r_http p).isSome = true) →
        (detect_protocol_parallel sched r_https r_http).cancelled =
          pending_tasks sched) := by
  intro α sched rh rt
  refine ⟨?_, ?_, ?_, ?_⟩
  · rintro d rfl rfl
    cases sched <;> rfl
  · rintro d rfl rfl
    cases sched <;> rfl
  · rintro rfl rfl
    cases sched <;> rfl
  · rintro ⟨p, hp, hsome⟩
    cases sched with
    | httpsDoneFirst =>
      have hps : p = "https" := by simpa [done_tasks] using hp
      subst hps
      cases hrh : rh with
      | none => rw [hrh] at hsome; simp [probe_result] at hsome
      | some d => cases rt <;> rfl
    | httpDoneFirst =>
      have hps : p = "http" := by simpa [done_tasks] using hp
      subst hps
      cases hrt : rt with
      | none => rw [hrt] at hsome; simp [probe_result] at hsome
      | some d => cases rh <;> rfl
    | bothDoneHttpsIterFirst => cases rh <;> cases rt <;> rfl
    | bothDoneHttpIterFirst => cases rh <;> cases rt <;> rfl

/-- Witness for C9: with only the HTTP probe succeeding and HTTPS completing
first, the race still returns the HTTP result. -/
theorem race_single_success_witness :
    (detect_protocol_parallel .httpsDoneFirst (none : Option Nat) (some 7)).result =
      some ("http", 7) :=
  (race_single_success_and_cancellation Nat .httpsDoneFirst none (some 7)).2.1
    7 rfl rfl

end DriftBeacon
